import Mathlib

/-!
# Verification of the 2dShapes affine-transform core

Shallow embedding of `src/matrix_math.js` (the matrix builders, composer,
point transformer, shape-transform rebuilder and orthographic projection
builder) and of the render dispatch in `src/main.js`.

JavaScript numbers are modelled as rationals (`ℚ`); the library functions
`Math.cos` / `Math.sin` are modelled as explicit function parameters, since
nothing proved here depends on their values.  A 3×3 matrix in the source is
a 9-element array in column-major order, modelled as `Fin 9 → ℚ`; the 4×4
projection matrix is `Fin 16 → ℚ`.

`makeRotationMatrix` in the source begins with an unconditional recursive
call to itself (with no argument, i.e. `undefined`), so it can never return;
the recursion is modelled with explicit fuel, `none` standing for the stack
exhaustion that the unbounded recursion produces.  A JavaScript value that
may be `undefined` (the argument of that recursive call) is modelled as
`Option ℚ`, `none` standing for `undefined`.
-/

/-- A 3×3 matrix as a flat 9-element column-major array: index `3*col+row`. -/
abbrev Mat3 := Fin 9 → ℚ

/-- A 4×4 matrix as a flat 16-element column-major array: index `4*col+row`. -/
abbrev Mat4 := Fin 16 → ℚ

/-- Flat column-major index of column `c`, row `r` in a 3×3 matrix. -/
def idx3 (c r : Fin 3) : Fin 9 := ⟨3 * c.val + r.val, by omega⟩

/-- `makeIdentityMatrix()` from `matrix_math.js`: `[1,0,0, 0,1,0, 0,0,1]`. -/
def makeIdentityMatrix : Mat3 := ![1, 0, 0, 0, 1, 0, 0, 0, 1]

/-- `makeRotationMatrix(thetaInDegrees)` from `matrix_math.js`.  The source
body is: `var myMatrix = makeRotationMatrix();` (an unconditional recursive
call with `undefined` as argument), then assignments
`myMatrix[0] = Math.cos(thetaInDegrees)`, `myMatrix[1] = Math.sin(...)`,
`myMatrix[3] = -Math.sin(...)`, `myMatrix[4] = Math.cos(...)`, then
`return myMatrix`.  `fuel` bounds the recursion depth; `none` models the
stack exhaustion the unbounded recursion causes.  `cos`/`sin` model
`Math.cos`/`Math.sin` on a possibly-`undefined` argument. -/
def makeRotationMatrix (cos sin : Option ℚ → ℚ) :
    Nat → Option ℚ → Option Mat3
  | 0, _ => none
  | fuel + 1, theta =>
    match makeRotationMatrix cos sin fuel none with
    | none => none
    | some m => some fun i =>
        if i = 0 then cos theta
        else if i = 1 then sin theta
        else if i = 3 then -(sin theta)
        else if i = 4 then cos theta
        else m i

/-- `makeTranslationMatrix(tx, ty)` from `matrix_math.js`: calls
`makeRotationMatrix()` (with no argument), then sets index 6 to `tx` and
index 7 to `ty`. -/
def makeTranslationMatrix (cos sin : Option ℚ → ℚ) (fuel : Nat)
    (tx ty : ℚ) : Option Mat3 :=
  match makeRotationMatrix cos sin fuel none with
  | none => none
  | some m => some fun i =>
      if i = 6 then tx else if i = 7 then ty else m i

/-- `makeScaleMatrix(sx, sy)` from `matrix_math.js`: calls
`makeRotationMatrix()` (with no argument), then sets index 0 to `sx` and
index 4 to `sy`. -/
def makeScaleMatrix (cos sin : Option ℚ → ℚ) (fuel : Nat)
    (sx sy : ℚ) : Option Mat3 :=
  match makeRotationMatrix cos sin fuel none with
  | none => none
  | some m => some fun i =>
      if i = 0 then sx else if i = 4 then sy else m i

/-- `multiplyMatrices(M1, M2)` from `matrix_math.js`: the nine assignments
`M3[0] = M1[0]*M2[0] + M1[3]*M2[1] + M1[6]*M2[2]`, …, transcribed
entry by entry. -/
def multiplyMatrices (M1 M2 : Mat3) : Mat3 :=
  ![M1 0 * M2 0 + M1 3 * M2 1 + M1 6 * M2 2,
    M1 1 * M2 0 + M1 4 * M2 1 + M1 7 * M2 2,
    M1 2 * M2 0 + M1 5 * M2 1 + M1 8 * M2 2,
    M1 0 * M2 3 + M1 3 * M2 4 + M1 6 * M2 5,
    M1 1 * M2 3 + M1 4 * M2 4 + M1 7 * M2 5,
    M1 2 * M2 3 + M1 5 * M2 4 + M1 8 * M2 5,
    M1 0 * M2 6 + M1 3 * M2 7 + M1 6 * M2 8,
    M1 1 * M2 6 + M1 4 * M2 7 + M1 7 * M2 8,
    M1 2 * M2 6 + M1 5 * M2 7 + M1 8 * M2 8]

/-- `Point` from `objects/Point`: a 2D point `{x, y}` (the constructor's
third, homogeneous argument is always `1` and carries no information for
the claims here). -/
structure Point where
  x : ℚ
  y : ℚ
  deriving DecidableEq, Repr

/-- `transformPoint(P, M)` from `matrix_math.js`: builds
`new Point(P.x, P.y, 1)` and then overwrites `myPoint.x = M[6] + P.x` and
`myPoint.y = M[7] + P.y`; the input `P` is not mutated. -/
def transformPoint (P : Point) (M : Mat3) : Point :=
  { x := M 6 + P.x, y := M 7 + P.y }

/-- The spec's formula for `transformPoint` (§4.3), for comparison with the
source definition above:
`x' = M[0]*P.x + M[3]*P.y + M[6]`, `y' = M[1]*P.x + M[4]*P.y + M[7]`. -/
def transformPointSpec (P : Point) (M : Mat3) : Point :=
  { x := M 0 * P.x + M 3 * P.y + M 6,
    y := M 1 * P.x + M 4 * P.y + M 7 }

/-- `shape` as consumed by `rebuildTransformationMatrix`: scalar transform
fields, the mutable composite matrix `M`, and the centroid returned by the
`computeCentroid()` capability. -/
structure Shape where
  tx : ℚ
  ty : ℚ
  sx : ℚ
  sy : ℚ
  rotAngle : ℚ
  rotAroundCenter : Bool
  M : Mat3
  centroidX : ℚ
  centroidY : ℚ

/-- `rebuildTransformationMatrix(shape)` from `matrix_math.js`, step by
step in source order: `var tempMatrix = shape.M` (unused);
`shape.rotAroundCenter = true`; build translation, scale and rotation
matrices; `newRTM = multiplyMatrices(shape.M, tranMatrix)`, then
`multiplyMatrices(newRTM, scaleMatrix)`, then
`multiplyMatrices(newRTM, rotMatrix)`; `shape.M = newRTM`.
If a builder exhausts the stack (`none`), the exception propagates and the
shape is left in its state at that moment — `rotAroundCenter` already set
to `true`, `M` not yet written.  The returned `Bool` records whether the
call completed normally. -/
def rebuildTransformationMatrix (cos sin : Option ℚ → ℚ) (fuel : Nat)
    (shape : Shape) : Shape × Bool :=
  let shape1 := { shape with rotAroundCenter := true }
  match makeTranslationMatrix cos sin fuel shape1.tx shape1.ty with
  | none => (shape1, false)
  | some tranMatrix =>
    match makeScaleMatrix cos sin fuel shape1.sx shape1.sy with
    | none => (shape1, false)
    | some scaleMatrix =>
      match makeRotationMatrix cos sin fuel (some shape1.rotAngle) with
      | none => (shape1, false)
      | some rotMatrix =>
        let newRTM := multiplyMatrices shape1.M tranMatrix
        let newRTM2 := multiplyMatrices newRTM scaleMatrix
        let newRTM3 := multiplyMatrices newRTM2 rotMatrix
        ({ shape1 with M := newRTM3 }, true)

/-- `orthoMatrix(b, t, l, r, n, f)` from `matrix_math.js` (in the source
`n` and `f` are optional parameters defaulting to `-1.0` and `1.0`;
see `orthoMatrixDefault`). -/
def orthoMatrix (b t l r n f : ℚ) : Mat4 :=
  let A1 := 2 / (r - l)
  let B1 := 2 / (t - b)
  let C1 := -2 / (f - n)
  let A2 := -(r + l) / (r - l)
  let B2 := -(t + b) / (t - b)
  let C2 := -(f + n) / (f - n)
  ![A1, 0, 0, 0,
    0, B1, 0, 0,
    0, 0, C1, 0,
    A2, B2, C2, 1]

/-- `orthoMatrix(b, t, l, r)` with the source's default arguments
`n = -1.0`, `f = 1.0`. -/
def orthoMatrixDefault (b t l r : ℚ) : Mat4 :=
  orthoMatrix b t l r (-1) 1

/-- `Shape.SHAPE_TYPE` constants referenced by `renderShape` in
`src/main.js`.  Modelled from the spec: `objects/Shape.js` is not among the
sources; the spec's scene consists of lines, triangles and circles. -/
inductive ShapeType
  | CIRCLE
  | LINE
  | TRIANGLE
  deriving DecidableEq, Repr

/-- The WebGL draw primitives issued through the vertex-buffer capability
(`drawLineLoop`, `drawTriangleFan`, `drawLines`, `drawTriangles`). -/
inductive DrawPrim
  | lineLoop
  | triangleFan
  | lines
  | triangles
  deriving DecidableEq, Repr

/-- The `(type, filled)` fields of a shape that `renderShape` dispatches on. -/
structure RShape where
  filled : Bool
  type : ShapeType
  deriving DecidableEq, Repr

/-- The draw primitive `renderShape(shape)` in `src/main.js` issues:
`if (!shape.filled && shape.type !== LINE) drawLineLoop()` else
`switch (shape.type)`: `CIRCLE → drawTriangleFan()`, `LINE → drawLines()`,
`TRIANGLE → drawTriangles()`. -/
def renderShape (s : RShape) : DrawPrim :=
  if s.filled = false ∧ s.type ≠ ShapeType.LINE then
    DrawPrim.lineLoop
  else
    match s.type with
    | ShapeType.CIRCLE => DrawPrim.triangleFan
    | ShapeType.LINE => DrawPrim.lines
    | ShapeType.TRIANGLE => DrawPrim.triangles

/-- The sequence of draw calls `renderScene` in `src/main.js` issues:
`scene.forEach(renderShape)`, one draw call per shape, accumulated in
array order. -/
def renderScene (scene : List RShape) : List DrawPrim :=
  scene.foldl (fun acc s => acc ++ [renderShape s]) []

/-! ## Helper lemmas -/

/-- The recursion in `makeRotationMatrix` has no base case: whatever the
fuel and argument, the stack is exhausted. -/
theorem makeRotationMatrix_eq_none (cos sin : Option ℚ → ℚ) :
    ∀ (fuel : Nat) (theta : Option ℚ),
      makeRotationMatrix cos sin fuel theta = none := by
  intro fuel
  induction fuel with
  | zero => intro theta; rfl
  | succ n ih => intro theta; simp [makeRotationMatrix, ih none]

theorem makeTranslationMatrix_eq_none (cos sin : Option ℚ → ℚ)
    (fuel : Nat) (tx ty : ℚ) :
    makeTranslationMatrix cos sin fuel tx ty = none := by
  simp [makeTranslationMatrix, makeRotationMatrix_eq_none]

theorem makeScaleMatrix_eq_none (cos sin : Option ℚ → ℚ)
    (fuel : Nat) (sx sy : ℚ) :
    makeScaleMatrix cos sin fuel sx sy = none := by
  simp [makeScaleMatrix, makeRotationMatrix_eq_none]

/-- `rebuildTransformationMatrix` always aborts inside its first matrix
builder, leaving the shape with `rotAroundCenter` forced to `true` and
everything else (in particular `M`) untouched. -/
theorem rebuildTransformationMatrix_run (cos sin : Option ℚ → ℚ)
    (fuel : Nat) (shape : Shape) :
    rebuildTransformationMatrix cos sin fuel shape =
      ({ shape with rotAroundCenter := true }, false) := by
  simp [rebuildTransformationMatrix, makeTranslationMatrix_eq_none]

/-- The concrete shape of claim C3: `tx=10, ty=0, sx=2, sy=2, rotAngle=0,
rotAroundCenter=false`, centroid `(5,5)`, `M` the default identity. -/
def shapeC3 : Shape :=
  { tx := 10, ty := 0, sx := 2, sy := 2, rotAngle := 0,
    rotAroundCenter := false, M := makeIdentityMatrix,
    centroidX := 5, centroidY := 5 }

/-- Evaluation of a 9-element vector literal at each index (for `simp` /
`norm_num`, which do not reduce `![…] k` on their own). -/
theorem vec9_at0 (a0 a1 a2 a3 a4 a5 a6 a7 a8 : ℚ) :
    (![a0, a1, a2, a3, a4, a5, a6, a7, a8] : Fin 9 → ℚ) 0 = a0 := rfl

theorem vec9_at1 (a0 a1 a2 a3 a4 a5 a6 a7 a8 : ℚ) :
    (![a0, a1, a2, a3, a4, a5, a6, a7, a8] : Fin 9 → ℚ) 1 = a1 := rfl

theorem vec9_at2 (a0 a1 a2 a3 a4 a5 a6 a7 a8 : ℚ) :
    (![a0, a1, a2, a3, a4, a5, a6, a7, a8] : Fin 9 → ℚ) 2 = a2 := rfl

theorem vec9_at3 (a0 a1 a2 a3 a4 a5 a6 a7 a8 : ℚ) :
    (![a0, a1, a2, a3, a4, a5, a6, a7, a8] : Fin 9 → ℚ) 3 = a3 := rfl

theorem vec9_at4 (a0 a1 a2 a3 a4 a5 a6 a7 a8 : ℚ) :
    (![a0, a1, a2, a3, a4, a5, a6, a7, a8] : Fin 9 → ℚ) 4 = a4 := rfl

theorem vec9_at5 (a0 a1 a2 a3 a4 a5 a6 a7 a8 : ℚ) :
    (![a0, a1, a2, a3, a4, a5, a6, a7, a8] : Fin 9 → ℚ) 5 = a5 := rfl

theorem vec9_at6 (a0 a1 a2 a3 a4 a5 a6 a7 a8 : ℚ) :
    (![a0, a1, a2, a3, a4, a5, a6, a7, a8] : Fin 9 → ℚ) 6 = a6 := rfl

theorem vec9_at7 (a0 a1 a2 a3 a4 a5 a6 a7 a8 : ℚ) :
    (![a0, a1, a2, a3, a4, a5, a6, a7, a8] : Fin 9 → ℚ) 7 = a7 := rfl

theorem vec9_at8 (a0 a1 a2 a3 a4 a5 a6 a7 a8 : ℚ) :
    (![a0, a1, a2, a3, a4, a5, a6, a7, a8] : Fin 9 → ℚ) 8 = a8 := rfl

/-! ## Claims -/

/-- C1: `transformPoint(P, M)` does NOT return the full homogeneous
matrix-vector product.  At `P = (1,0)` and the pure-scale matrix
`[2,0,0, 0,1,0, 0,0,1]` the code returns `(1,0)` — it only adds the
translation column `M[6], M[7]` — while the spec's formula gives `(2,0)`. -/
theorem transformPoint_ignores_linear_part :
    transformPoint ⟨1, 0⟩ ![2, 0, 0, 0, 1, 0, 0, 0, 1] = ⟨1, 0⟩ ∧
    transformPointSpec ⟨1, 0⟩ ![2, 0, 0, 0, 1, 0, 0, 0, 1] = ⟨2, 0⟩ ∧
    transformPoint ⟨1, 0⟩ ![2, 0, 0, 0, 1, 0, 0, 0, 1] ≠
      transformPointSpec ⟨1, 0⟩ ![2, 0, 0, 0, 1, 0, 0, 0, 1] := by
  refine ⟨?_, ?_, ?_⟩ <;>
    norm_num [transformPoint, transformPointSpec, Point.mk.injEq,
      vec9_at0, vec9_at1, vec9_at3, vec9_at4, vec9_at6, vec9_at7]

/-- C2: `rebuildTransformationMatrix` never recomputes `shape.M` from
scratch: for every fuel it aborts inside its first matrix builder (the
unbounded recursion of `makeRotationMatrix`), so the call never completes
and `shape.M` is never written — and the source expression that would
write it starts from `multiplyMatrices(shape.M, tranMatrix)`, multiplying
the previous value in rather than discarding it. -/
theorem rebuildTransformationMatrix_never_writes_M
    (cos sin : Option ℚ → ℚ) (fuel : Nat) (shape : Shape) :
    (rebuildTransformationMatrix cos sin fuel shape).2 = false ∧
    (rebuildTransformationMatrix cos sin fuel shape).1.M = shape.M := by
  rw [rebuildTransformationMatrix_run]
  exact ⟨rfl, rfl⟩

/-- C3: on the concrete shape of the claim (`tx=10, sx=sy=2`, centroid
`(5,5)`, `M` = identity) `rebuildTransformationMatrix` aborts without
writing `M`, so transforming the shape's centroid by `shape.M` afterwards
yields `(5,5)`, not the `(15,5)` the claim requires (and the code never
consults the centroid at all: it has no `computeCentroid` call). -/
theorem rebuildTransformationMatrix_concrete_centroid
    (cos sin : Option ℚ → ℚ) (fuel : Nat) :
    (rebuildTransformationMatrix cos sin fuel shapeC3).2 = false ∧
    transformPoint ⟨shapeC3.centroidX, shapeC3.centroidY⟩
        ((rebuildTransformationMatrix cos sin fuel shapeC3).1.M) = ⟨5, 5⟩ ∧
    (⟨5, 5⟩ : Point) ≠ ⟨15, 5⟩ := by
  rw [rebuildTransformationMatrix_run]
  refine ⟨rfl, ?_, ?_⟩ <;>
    norm_num [transformPoint, shapeC3, makeIdentityMatrix, Point.mk.injEq,
      vec9_at6, vec9_at7]

/-- C4: `makeRotationMatrix` never returns any matrix at all — in
particular not the claimed identity-with-trig-entries matrix — because its
first step is an unconditional recursive call with no base case; here
evaluated at the input 90 (degrees) for every recursion depth. -/
theorem makeRotationMatrix_diverges_at_ninety
    (cos sin : Option ℚ → ℚ) (fuel : Nat) :
    makeRotationMatrix cos sin fuel (some 90) = none :=
  makeRotationMatrix_eq_none cos sin fuel (some 90)

/-- C5: the composition law
`transformPoint(transformPoint(P, A), B) = transformPoint(P, multiplyMatrices(B, A))`
fails on the code: with `P = (0,0)`, `A` the translation by `(1,0)` and `B`
the scale-x-by-2 matrix, the left side is `(1,0)` but the right side is
`(2,0)`, because `transformPoint` drops the linear part of its matrix. -/
theorem transformPoint_compose_counterexample :
    transformPoint (transformPoint ⟨0, 0⟩ ![1, 0, 0, 0, 1, 0, 1, 0, 1])
        ![2, 0, 0, 0, 1, 0, 0, 0, 1] ≠
      transformPoint ⟨0, 0⟩
        (multiplyMatrices ![2, 0, 0, 0, 1, 0, 0, 0, 1]
          ![1, 0, 0, 0, 1, 0, 1, 0, 1]) := by
  norm_num [transformPoint, multiplyMatrices, Point.mk.injEq,
    vec9_at0, vec9_at1, vec9_at2, vec9_at3, vec9_at4, vec9_at5,
    vec9_at6, vec9_at7, vec9_at8]

/-- C6: `multiplyMatrices` is the standard 3×3 column-major matrix
product: entry at column `c`, row `r` (flat index `3c+r`) is
`Σ k, M1[3k+r] * M2[3c+k]`.  (The model is pure, as is the source: `M3` is
freshly allocated and `M1`, `M2` are only read.) -/
theorem multiplyMatrices_is_matrix_product (M1 M2 : Mat3) (c r : Fin 3) :
    multiplyMatrices M1 M2 (idx3 c r) =
      ∑ k : Fin 3, M1 (idx3 k r) * M2 (idx3 c k) := by
  fin_cases c <;> fin_cases r <;> rw [Fin.sum_univ_three] <;> rfl

/-- Evaluation of a 16-element vector literal at the indices used by the
orthographic-projection claim. -/
theorem vec16_at0 (a0 a1 a2 a3 a4 a5 a6 a7 a8 a9 a10 a11 a12 a13 a14 a15 : ℚ) :
    (![a0, a1, a2, a3, a4, a5, a6, a7, a8, a9, a10, a11, a12, a13, a14, a15] :
      Fin 16 → ℚ) 0 = a0 := rfl

theorem vec16_at5 (a0 a1 a2 a3 a4 a5 a6 a7 a8 a9 a10 a11 a12 a13 a14 a15 : ℚ) :
    (![a0, a1, a2, a3, a4, a5, a6, a7, a8, a9, a10, a11, a12, a13, a14, a15] :
      Fin 16 → ℚ) 5 = a5 := rfl

theorem vec16_at10 (a0 a1 a2 a3 a4 a5 a6 a7 a8 a9 a10 a11 a12 a13 a14 a15 : ℚ) :
    (![a0, a1, a2, a3, a4, a5, a6, a7, a8, a9, a10, a11, a12, a13, a14, a15] :
      Fin 16 → ℚ) 10 = a10 := rfl

theorem vec16_at12 (a0 a1 a2 a3 a4 a5 a6 a7 a8 a9 a10 a11 a12 a13 a14 a15 : ℚ) :
    (![a0, a1, a2, a3, a4, a5, a6, a7, a8, a9, a10, a11, a12, a13, a14, a15] :
      Fin 16 → ℚ) 12 = a12 := rfl

theorem vec16_at13 (a0 a1 a2 a3 a4 a5 a6 a7 a8 a9 a10 a11 a12 a13 a14 a15 : ℚ) :
    (![a0, a1, a2, a3, a4, a5, a6, a7, a8, a9, a10, a11, a12, a13, a14, a15] :
      Fin 16 → ℚ) 13 = a13 := rfl

theorem vec16_at14 (a0 a1 a2 a3 a4 a5 a6 a7 a8 a9 a10 a11 a12 a13 a14 a15 : ℚ) :
    (![a0, a1, a2, a3, a4, a5, a6, a7, a8, a9, a10, a11, a12, a13, a14, a15] :
      Fin 16 → ℚ) 14 = a14 := rfl

/-- C7: `orthoMatrix` builds the standard column-major orthographic
projection matrix `[A1,0,0,0, 0,B1,0,0, 0,0,C1,0, A2,B2,C2,1]` with
`A1 = 2/(r-l)`, `B1 = 2/(t-b)`, `C1 = -2/(f-n)`, `A2 = -(r+l)/(r-l)`,
`B2 = -(t+b)/(t-b)`, `C2 = -(f+n)/(f-n)`; concretely
`orthoMatrix(0, 100, 0, 200)` with the default `n = -1`, `f = 1` has
`A1 = 1/100 = 0.01`, `B1 = 1/50 = 0.02`, `C1 = -1`, `A2 = -1`, `B2 = -1`,
`C2 = 0` (at flat indices 0, 5, 10, 12, 13, 14). -/
theorem orthoMatrix_spec (b t l r n f : ℚ)
    (hr : r ≠ l) (ht : t ≠ b) (hf : f ≠ n) :
    orthoMatrix b t l r n f =
      ![2 / (r - l), 0, 0, 0,
        0, 2 / (t - b), 0, 0,
        0, 0, -2 / (f - n), 0,
        -(r + l) / (r - l), -(t + b) / (t - b), -(f + n) / (f - n), 1] ∧
    orthoMatrixDefault 0 100 0 200 0 = 1 / 100 ∧
    orthoMatrixDefault 0 100 0 200 5 = 1 / 50 ∧
    orthoMatrixDefault 0 100 0 200 10 = -1 ∧
    orthoMatrixDefault 0 100 0 200 12 = -1 ∧
    orthoMatrixDefault 0 100 0 200 13 = -1 ∧
    orthoMatrixDefault 0 100 0 200 14 = 0 := by
  refine ⟨rfl, ?_, ?_, ?_, ?_, ?_, ?_⟩ <;>
    norm_num [orthoMatrixDefault, orthoMatrix, vec16_at0, vec16_at5,
      vec16_at10, vec16_at12, vec16_at13, vec16_at14]

/-- Witness for C7: the hypotheses hold at the claim's concrete bounds
`b=0, t=100, l=0, r=200, n=-1, f=1`. -/
theorem orthoMatrix_spec_witness :
    orthoMatrix 0 100 0 200 (-1) 1 =
      ![2 / (200 - 0), 0, 0, 0,
        0, 2 / (100 - 0), 0, 0,
        0, 0, -2 / (1 - -1), 0,
        -(200 + 0) / (200 - 0), -(100 + 0) / (100 - 0),
        -(1 + -1) / (1 - -1), 1] :=
  (orthoMatrix_spec 0 100 0 200 (-1) 1 (by norm_num) (by norm_num)
    (by norm_num)).1

/-- C8: `rebuildTransformationMatrix` leaves `tx, ty, sx, sy, rotAngle`
unchanged, but it does NOT leave `rotAroundCenter` unchanged: the source
line `shape.rotAroundCenter = true` forces the flag to `true` for every
shape, so a shape that started with `rotAroundCenter = false` has a
different value afterwards. -/
theorem rebuildTransformationMatrix_mutates_rotAroundCenter
    (cos sin : Option ℚ → ℚ) (fuel : Nat) (shape : Shape) :
    (rebuildTransformationMatrix cos sin fuel shape).1.tx = shape.tx ∧
    (rebuildTransformationMatrix cos sin fuel shape).1.ty = shape.ty ∧
    (rebuildTransformationMatrix cos sin fuel shape).1.sx = shape.sx ∧
    (rebuildTransformationMatrix cos sin fuel shape).1.sy = shape.sy ∧
    (rebuildTransformationMatrix cos sin fuel shape).1.rotAngle =
      shape.rotAngle ∧
    (rebuildTransformationMatrix cos sin fuel shape).1.rotAroundCenter =
      true := by
  rw [rebuildTransformationMatrix_run]
  exact ⟨rfl, rfl, rfl, rfl, rfl, rfl⟩

/-- `forEach`-style left fold with an accumulator, related to `List.map`. -/
theorem renderScene_foldl_append (scene : List RShape) :
    ∀ acc : List DrawPrim,
      List.foldl (fun a s => a ++ [renderShape s]) acc scene =
        acc ++ scene.map renderShape := by
  induction scene with
  | nil => intro acc; simp
  | cons s rest ih => intro acc; simp [ih]

/-- C9: the draw primitive is selected from `(shape.type, shape.filled)`:
unfilled non-LINE shapes are drawn as a line loop; LINE shapes as line
segments regardless of the fill flag; filled circles as a triangle fan;
filled triangles as triangles; and `renderScene` issues one draw call per
shape in scene array order (`forEach`), with no reordering. -/
theorem renderShape_dispatch :
    (∀ s : RShape, s.filled = false → s.type ≠ ShapeType.LINE →
        renderShape s = DrawPrim.lineLoop) ∧
    (∀ s : RShape, s.type = ShapeType.LINE →
        renderShape s = DrawPrim.lines) ∧
    (∀ s : RShape, s.filled = true → s.type = ShapeType.CIRCLE →
        renderShape s = DrawPrim.triangleFan) ∧
    (∀ s : RShape, s.filled = true → s.type = ShapeType.TRIANGLE →
        renderShape s = DrawPrim.triangles) ∧
    (∀ scene : List RShape, renderScene scene = scene.map renderShape) := by
  refine ⟨?_, ?_, ?_, ?_, ?_⟩
  · intro s h1 h2; simp [renderShape, h1, h2]
  · intro s h; simp [renderShape, h]
  · intro s h1 h2; simp [renderShape, h1, h2]
  · intro s h1 h2; simp [renderShape, h1, h2]
  · intro scene; simp [renderScene, renderScene_foldl_append]

/-- Witness for C9: the dispatch facts instantiated at concrete shapes —
an unfilled circle draws as a line loop, a filled line as line segments. -/
theorem renderShape_dispatch_witness :
    renderShape ⟨false, ShapeType.CIRCLE⟩ = DrawPrim.lineLoop ∧
    renderShape ⟨true, ShapeType.LINE⟩ = DrawPrim.lines :=
  ⟨renderShape_dispatch.1 ⟨false, ShapeType.CIRCLE⟩ rfl (by simp),
   renderShape_dispatch.2.1 ⟨true, ShapeType.LINE⟩ rfl⟩

/-- C10: none of the three matrix builders ever terminates, at any
recursion depth and for any input: `makeRotationMatrix` starts with an
unconditional argument-less recursive call to itself and has no base case,
and `makeTranslationMatrix` and `makeScaleMatrix` both start by calling
`makeRotationMatrix()`. -/
theorem matrixBuilders_never_terminate (cos sin : Option ℚ → ℚ)
    (fuel : Nat) :
    (∀ theta : Option ℚ, makeRotationMatrix cos sin fuel theta = none) ∧
    (∀ tx ty : ℚ, makeTranslationMatrix cos sin fuel tx ty = none) ∧
    (∀ sx sy : ℚ, makeScaleMatrix cos sin fuel sx sy = none) :=
  ⟨makeRotationMatrix_eq_none cos sin fuel,
   fun tx ty => makeTranslationMatrix_eq_none cos sin fuel tx ty,
   fun sx sy => makeScaleMatrix_eq_none cos sin fuel sx sy⟩
